import Mathlib

/-!
Verification of the twitter-bot repository: a shallow embedding of its
credential loading (`src/utils/helper.py`), post submission
(`src/twitter/post_tweet.py`), OAuth token exchange
(`src/auth/oauth_handler.py`), content generation
(`src/ai/tweet_generator.py`), and the orchestrator (`app.py`),
together with theorems settling the frozen claims about them.

External effects (HTTP responses, the generative API, the browser driver,
the process environment) are passed in explicitly as values or oracles;
everything else is translated directly from the Python source.
-/

namespace TwitterBot

/-- Substring occurrence: `needle` occurs contiguously inside `hay`
(Python `in` on strings). -/
def strContains (hay needle : String) : Bool :=
  decide (needle.data <:+: hay.data)

/-- Python `str.lower`, character by character. -/
def strToLower (s : String) : String := String.mk (s.data.map Char.toLower)

/-- Python `str.strip()`: remove leading and trailing whitespace. -/
def pyStrip (s : String) : String :=
  String.mk (((s.data.dropWhile Char.isWhitespace).reverse.dropWhile Char.isWhitespace).reverse)

/-! ## Credential Provider — `src/utils/helper.py`, `get_env_var`

The process environment is modelled as a partial map from variable names
to values (`os.getenv`). -/

/-- `get_env_var` from `src/utils/helper.py` (lines 29–53): look the name
up with `os.getenv`; `None` raises
`ValueError(f"Environment variable {var_name} not found.")`, otherwise the
value is returned. -/
def get_env_var (env : String → Option String) (var_name : String) : Except String String :=
  match env var_name with
  | some value => .ok value
  | none => .error ("Environment variable " ++ var_name ++ " not found.")

/-! ## Post Submitter — `src/twitter/post_tweet.py`, `post_tweet` -/

/-- The HTTP response the platform endpoint produced, as seen through the
`requests` response object: status code, reason phrase, request URL, raw
body text (`response.text`) and the decoded JSON body (`response.json()`),
the latter kept abstract as a string value. -/
structure HttpResponse where
  status : Nat
  reason : String
  url : String
  text : String
  jsonValue : String
deriving DecidableEq, Repr

/-- `requests.Response.raise_for_status`: statuses 400–499 raise
`HTTPError("{status} Client Error: {reason} for url: {url}")`, statuses
500–599 raise the `Server Error` variant, and every other status raises
nothing. The body is not part of the raised message. -/
def raise_for_status_msg (r : HttpResponse) : Option String :=
  if 400 ≤ r.status ∧ r.status < 500 then
    some (toString r.status ++ " Client Error: " ++ r.reason ++ " for url: " ++ r.url)
  else if 500 ≤ r.status ∧ r.status < 600 then
    some (toString r.status ++ " Server Error: " ++ r.reason ++ " for url: " ++ r.url)
  else
    none

/-- Outcome of one `post_tweet` call: the returned/raised value plus the
error-level log lines written to `logs/twitter.log` along the way. -/
structure PostResult where
  outcome : Except String String
  errorLogs : List String
deriving Repr

/-- `post_tweet` from `src/twitter/post_tweet.py` (lines 57–81), applied to
the response the endpoint sent back.  A non-201 status logs
`"Error posting tweet: {status} {text}"` and calls `raise_for_status()`;
if that raises, the `except` block logs `"Failed to post tweet: {e}"` and
re-raises, otherwise control falls through to `return response.json()`. -/
def post_tweet (r : HttpResponse) : PostResult :=
  if r.status ≠ 201 then
    let logged := "Error posting tweet: " ++ toString r.status ++ " " ++ r.text
    match raise_for_status_msg r with
    | some msg => ⟨.error msg, [logged, "Failed to post tweet: " ++ msg]⟩
    | none => ⟨.ok r.jsonValue, [logged]⟩
  else
    ⟨.ok r.jsonValue, []⟩

/-! ## Orchestrator submission call — `app.py`, `main` (lines 87–93) -/

/-- The keyword arguments `post_tweet` hands to `OAuth1Session` (lines
61–66 of `src/twitter/post_tweet.py`): its first parameter becomes
`client_key`, its second `client_secret`, its third `resource_owner_key`,
its fourth `resource_owner_secret`. -/
structure OAuth1SessionArgs where
  client_key : String
  client_secret : String
  resource_owner_key : String
  resource_owner_secret : String
deriving DecidableEq, Repr

/-- The OAuth1 session `post_tweet(consumer_key, consumer_secret,
access_token, access_token_secret, ...)` constructs, as a function of its
positional parameters. -/
def post_tweet_session (consumer_key consumer_secret access_token access_token_secret : String) :
    OAuth1SessionArgs :=
  ⟨consumer_key, consumer_secret, access_token, access_token_secret⟩

/-- The call `main` makes in `app.py` lines 87–93: `post_tweet` is invoked
positionally with `(access_token, access_token_secret, consumer_key,
consumer_secret, tweet_text)`.  Returns the OAuth1 session that submission
will be signed with, together with the tweet text payload. -/
def app_main_post_call (access_token access_token_secret consumer_key consumer_secret
    tweet_text : String) : OAuth1SessionArgs × String :=
  (post_tweet_session access_token access_token_secret consumer_key consumer_secret, tweet_text)

/-! ## Browser login — `src/auth/oauth_handler.py`, `get_twitter_verifier` -/

/-- The browser-driver environment `get_twitter_verifier` runs against.
`setup` is the `setup_selenium(headless=headless)` call (raises or yields
a driver); `navigate` is `driver.get(auth_url)`; `locate i` is the `i`-th
`WebDriverWait(driver, 10).until(...)` element lookup in source order
(`.ok` yields the element text, `.error` is a timeout or any other
driver fault); `page_source` is `driver.page_source` at the
unusual-login-activity check. -/
structure BrowserEnv where
  setup : Except String Unit
  navigate : Except String Unit
  locate : Nat → Except String String
  page_source : String

/-- The `try` block of `get_twitter_verifier` (lines 74–149): navigate to
the authorization URL, then in order wait for and use the sign-in button
(step 0), the username input (step 1), the Next button (step 2), the
email-fallback input when the page source mentions unusual login activity
(step 3), the password input (step 4), the login button (step 5), the
authorize control (step 6), and finally the displayed verifier code
(step 7), whose text is returned. -/
def get_twitter_verifier_body (env : BrowserEnv) : Except String String := do
  _ ← env.navigate
  _ ← env.locate 0
  _ ← env.locate 1
  _ ← env.locate 2
  if strContains (strToLower env.page_source) "unusual login activity" then
    _ ← env.locate 3
  _ ← env.locate 4
  _ ← env.locate 5
  _ ← env.locate 6
  env.locate 7

/-- Outcome of one `get_twitter_verifier` call: what the call returns or
raises, and whether `driver.quit()` ran. -/
structure VerifierOutcome where
  result : Except String (Option String)
  driverQuit : Bool

/-- `get_twitter_verifier` from `src/auth/oauth_handler.py` (lines
50–157).  The driver is created by `setup_selenium` *before* the `try`
block, so a setup fault propagates with no cleanup; inside the
`try`/`except`/`finally`, any exception is caught and turned into a
`None` return, and `driver.quit()` runs on every path. -/
def get_twitter_verifier (env : BrowserEnv) : VerifierOutcome :=
  match env.setup with
  | .error e => ⟨.error e, false⟩
  | .ok _ =>
    match get_twitter_verifier_body env with
    | .ok verifier_code => ⟨.ok (some verifier_code), true⟩
    | .error _ => ⟨.ok none, true⟩

/-! ## OAuth token exchange — `src/auth/oauth_handler.py`, `fetch_access_token` -/

/-- Network interactions `fetch_access_token` can perform, in the order
the source makes them. -/
inductive OAuthCall where
  | requestTokenCall
  | accessTokenCall
deriving DecidableEq, Repr

/-- `fetch_access_token` from `src/auth/oauth_handler.py` (lines
160–212), with its three external interactions passed in:
`fetch_request_token` (the request-token endpoint), the verifier obtained
from `get_twitter_verifier` (`none` models a `None` return), and
`fetch_access_token_exchange` (the access-token endpoint, taking the
request token pair and the verifier).  Besides the returned or raised
value it records which token endpoints were called.  The Python
`if not verifier` test is falsy for both `None` and the empty string. -/
def fetch_access_token
    (fetch_request_token : Except String (String × String))
    (verifier : Option String)
    (fetch_access_token_exchange : String × String → String → Except String (String × String)) :
    Except String (String × String) × List OAuthCall :=
  match fetch_request_token with
  | .error e => (.error e, [.requestTokenCall])
  | .ok (resource_owner_key, resource_owner_secret) =>
    match verifier with
    | none =>
      (.error "OAuth verification process failed: Unable to obtain verifier code",
        [.requestTokenCall])
    | some v =>
      if v = "" then
        (.error "OAuth verification process failed: Unable to obtain verifier code",
          [.requestTokenCall])
      else
        (fetch_access_token_exchange (resource_owner_key, resource_owner_secret) v,
          [.requestTokenCall, .accessTokenCall])

/-! ## Module loading — `src/auth/oauth_handler.py` line 31 against
`src/utils/selenium_setup.py` -/

/-- The module-level names `src/utils/selenium_setup.py` binds (its own
imported names, logger objects, and its single function definition
`setup_selenium_driver`). -/
def selenium_setup_module_names : List String :=
  ["logging", "webdriver", "Service", "Options", "ChromeDriverManager",
   "selenium_logger", "handler", "setup_selenium_driver"]

/-- The name `src/auth/oauth_handler.py` line 31 imports from
`src.utils.selenium_setup`. -/
def oauth_handler_selenium_import : String := "setup_selenium"

/-- Python `from module import name`: succeeds exactly when the module
binds `name`, otherwise the importing module fails to load with an
`ImportError` naming it. -/
def resolveImport (module_names : List String) (name : String) : Except String Unit :=
  if module_names.contains name then .ok ()
  else .error ("cannot import name " ++ name)

/-- Loading `src/auth/oauth_handler.py`: its line
`from src.utils.selenium_setup import setup_selenium` must resolve before
any of its definitions (`get_twitter_verifier`, `fetch_access_token`)
exist. -/
def load_oauth_handler : Except String Unit :=
  resolveImport selenium_setup_module_names oauth_handler_selenium_import

/-- A run that needs the token exchange (such as `main` in `app.py`,
which pulls `fetch_access_token` from the OAuth handler) first loads the
OAuth handler module and only then can perform `fetch_access_token`. -/
def run_token_exchange
    (fetch_request_token : Except String (String × String))
    (verifier : Option String)
    (fetch_access_token_exchange : String × String → String → Except String (String × String)) :
    Except String (String × String) × List OAuthCall :=
  match load_oauth_handler with
  | .error e => (.error e, [])
  | .ok _ => fetch_access_token fetch_request_token verifier fetch_access_token_exchange

/-! ## Content Generator — `src/ai/tweet_generator.py`, `TweetGenerator` -/

/-- One stored post entry (`tweet_entry` dicts in `tweets.json`): text,
ISO timestamp, and the nullable topic and phase it was generated for. -/
structure TweetEntry where
  text : String
  timestamp : String
  topic : Option String
  phase : Option String
deriving DecidableEq, Repr

/-- The truncation step of `generate_tweet` (lines 206–207 and 259–260):
Python `s[:max_tweet_length]` applied only when `len(s) > max_tweet_length`,
i.e. a hard cut keeping exactly the first `maxLen` characters. -/
def truncate (maxLen : Nat) (s : String) : String :=
  if s.length > maxLen then String.mk (s.data.take maxLen) else s

/-- The introduction gate of `generate_tweet` (lines 187–188):
`any(tweet.get('topic') == 'introduction' for tweet in self.tweet_storage)`. -/
def has_intro (storage : List TweetEntry) : Bool :=
  storage.any (fun tweet => tweet.topic = some "introduction")

/-- What one `generate_tweet` call produced: the returned string, the
tweet storage after the call, how many generative-API calls were made,
and which branch ran (`"introduction"` or `"regular"`). -/
structure GenOutcome where
  result : String
  storage : List TweetEntry
  apiCalls : Nat
  mode : String
deriving DecidableEq, Repr

/-- The introduction branch of `generate_tweet` (lines 189–224): one
generative-API call (`api` maps the call index to the candidate text or
the raised exception text); on success the stripped candidate is
truncated, stored with topic `"introduction"` and phase `None`, and
returned; any exception yields the bare sentinel
`"Error generating tweet"`. -/
def introGen (api : Nat → Except String String) (storage : List TweetEntry)
    (now : String) (maxLen : Nat) : GenOutcome :=
  match api 0 with
  | .error _ => ⟨"Error generating tweet", storage, 1, "introduction"⟩
  | .ok raw =>
    let intro_tweet := truncate maxLen (pyStrip raw)
    ⟨intro_tweet, storage ++ [⟨intro_tweet, now, some "introduction", none⟩], 1, "introduction"⟩

/-- The `while attempt < max_attempts` loop of the regular branch of
`generate_tweet` (lines 247–287).  `fuel` is `max_attempts - attempt` and
`attempt` counts the API calls already made.  Each iteration calls the
generative API, strips and truncates the candidate, and runs the
similarity check (`sim`, modelling `is_similar_to_existing` against the
current storage; `.error` models an exception it raises); both exception
sources are caught by the same `try` and returned as
`"Error generating tweet: {e}"`.  A non-similar candidate is stored and
returned; a similar one increments `attempt`; an exhausted budget returns
the failure sentinel. -/
def regularAttempts (api : Nat → Except String String)
    (sim : List TweetEntry → String → Except String Bool)
    (storage : List TweetEntry) (now : String) (maxLen : Nat)
    (topic phase : Option String) : Nat → Nat → GenOutcome
  | 0, attempt => ⟨"Failed to generate a unique tweet. Please try again.", storage, attempt, "regular"⟩
  | fuel + 1, attempt =>
    match api attempt with
    | .error e => ⟨"Error generating tweet: " ++ e, storage, attempt + 1, "regular"⟩
    | .ok raw =>
      let generated_tweet := truncate maxLen (pyStrip raw)
      match sim storage generated_tweet with
      | .error e => ⟨"Error generating tweet: " ++ e, storage, attempt + 1, "regular"⟩
      | .ok true => regularAttempts api sim storage now maxLen topic phase fuel (attempt + 1)
      | .ok false =>
        ⟨generated_tweet, storage ++ [⟨generated_tweet, now, topic, phase⟩], attempt + 1, "regular"⟩

/-- `generate_tweet` from `src/ai/tweet_generator.py` (lines 184–287):
if no stored entry has topic `"introduction"` the introduction branch
runs, otherwise (`elif has_intro`) the regular branch runs with
`max_attempts = 3` starting at `attempt = 0`.  The generative API and the
similarity check are passed in as oracles; `now` stands for
`datetime.now().isoformat()`. -/
def generate_tweet (api : Nat → Except String String)
    (sim : List TweetEntry → String → Except String Bool)
    (storage : List TweetEntry) (now : String) (maxLen : Nat)
    (topic phase : Option String) : GenOutcome :=
  if has_intro storage then
    regularAttempts api sim storage now maxLen topic phase 3 0
  else
    introGen api storage now maxLen

/-! ## Similarity check — `src/ai/tweet_generator.py`, `is_similar_to_existing`

The check delegates to scikit-learn: `TfidfVectorizer(stop_words='english',
ngram_range=(1, 2), max_features=1000).fit_transform` on the lower-cased
new tweet and all stored texts, then `cosine_similarity` of the new row
against the stored rows, then `max(...) >= threshold`.  The embedding
reproduces that pipeline: the default token pattern keeps maximal runs of
word characters of length at least two, lower-cased (this also subsumes the
`' '.join(word.lower() ...)` preprocessing in the source); stop words are
removed before n-gram assembly; features are unigrams plus adjacent
bigrams; term weights are raw counts times the smoothed idf
`ln((1 + n)/(1 + df)) + 1`; rows are l2-normalised, so the cosine of two
rows is their tf-idf dot product over the vocabulary divided by the
product of their norms, with zero rows giving similarity 0.  An empty
vocabulary makes `fit_transform` raise `ValueError`.  The stop-word list
is passed in as a parameter.  Floating-point arithmetic is modelled
exactly over `ℝ`. -/

/-- A word character of the default sklearn token pattern `\w\w+`. -/
def isWordChar (c : Char) : Bool := c.isAlphanum || c = '_'

/-- Scan the character list, accumulating the current (reversed) run of
word characters; emit a lower-cased token whenever a run of length at
least two ends. -/
def tokenizeAux : List Char → List Char → List String
  | [], current =>
    if current.length ≥ 2 then [String.mk current.reverse] else []
  | c :: cs, current =>
    if isWordChar c then
      tokenizeAux cs (c.toLower :: current)
    else
      (if current.length ≥ 2 then [String.mk current.reverse] else []) ++ tokenizeAux cs []

/-- sklearn tokenisation of one document (lowercase, token pattern
`\w\w+`). -/
def tokenize (s : String) : List String := tokenizeAux s.data []

/-- Adjacent bigrams of a token list, joined by a space
(`ngram_range=(1, 2)` adds these to the unigrams). -/
def bigrams : List String → List String
  | t₁ :: t₂ :: rest => (t₁ ++ " " ++ t₂) :: bigrams (t₂ :: rest)
  | _ => []

/-- The feature multiset of one document: stop-word-filtered tokens plus
their adjacent bigrams. -/
def features (stop_words : List String) (s : String) : List String :=
  let toks := (tokenize s).filter (fun t => !stop_words.contains t)
  toks ++ bigrams toks

/-- All distinct features occurring in the corpus. -/
def vocabAll (docs : List (List String)) : List String := docs.flatten.dedup

/-- Number of occurrences of a feature across the whole corpus (the
ordering key of `max_features`). -/
def corpusTermFrequency (docs : List (List String)) (f : String) : Nat :=
  (docs.map (fun d => d.count f)).sum

/-- The fitted vocabulary under `max_features`: all distinct features
when there are at most `maxFeatures` of them, otherwise the
`maxFeatures` most frequent ones (ties broken alphabetically). -/
def limitVocab (docs : List (List String)) (maxFeatures : Nat) : List String :=
  let v := vocabAll docs
  if v.length ≤ maxFeatures then v
  else
    (v.mergeSort (fun a b =>
      decide (corpusTermFrequency docs b < corpusTermFrequency docs a ∨
        (corpusTermFrequency docs a = corpusTermFrequency docs b ∧ a ≤ b)))).take maxFeatures

/-- Document frequency of a feature: in how many corpus documents it
occurs. -/
def docFreq (docs : List (List String)) (f : String) : Nat :=
  docs.countP (fun d => decide (f ∈ d))

/-- Smoothed inverse document frequency,
`ln((1 + n)/(1 + df(f))) + 1` (`smooth_idf=True`). -/
noncomputable def idf (docs : List (List String)) (f : String) : ℝ :=
  Real.log ((1 + (docs.length : ℝ)) / (1 + (docFreq docs f : ℝ))) + 1

/-- Unnormalised tf-idf weight of feature `f` in document `d`. -/
noncomputable def tfidfVal (docs : List (List String)) (d : List String) (f : String) : ℝ :=
  (d.count f : ℝ) * idf docs f

/-- Dot product of the unnormalised tf-idf rows of `d` and `e` over the
fitted vocabulary. -/
noncomputable def dotTfidf (vocab : List String) (docs : List (List String))
    (d e : List String) : ℝ :=
  (vocab.map (fun f => tfidfVal docs d f * tfidfVal docs e f)).sum

/-- Cosine similarity of the tf-idf rows of `d` and `e` as
`sklearn.metrics.pairwise.cosine_similarity` computes it: zero rows give
0, otherwise the dot product divided by the product of the norms. -/
noncomputable def cosSim (vocab : List String) (docs : List (List String))
    (d e : List String) : ℝ :=
  if dotTfidf vocab docs d d = 0 ∨ dotTfidf vocab docs e e = 0 then 0
  else
    dotTfidf vocab docs d e /
      (Real.sqrt (dotTfidf vocab docs d d) * Real.sqrt (dotTfidf vocab docs e e))

/-- Python `max(xs) if len(xs) > 0 else 0` (line 155 of
`src/ai/tweet_generator.py`). -/
noncomputable def pyMax : List ℝ → ℝ
  | [] => 0
  | x :: xs => xs.foldl max x

/-- The tokenised corpus handed to `fit_transform`: the new tweet followed
by all stored texts. -/
def simCorpus (stop_words : List String) (new_tweet : String) (existing : List String) :
    List (List String) :=
  (new_tweet :: existing).map (features stop_words)

/-- The maximum pairwise cosine similarity of the new tweet against the
stored texts, over the corpus `new_tweet :: existing`. -/
noncomputable def maxPairwiseCosine (stop_words : List String) (new_tweet : String)
    (existing : List String) : ℝ :=
  pyMax ((existing.map (features stop_words)).map (fun d =>
    cosSim (limitVocab (simCorpus stop_words new_tweet existing) 1000)
      (simCorpus stop_words new_tweet existing)
      (features stop_words new_tweet) d))

/-- `is_similar_to_existing` from `src/ai/tweet_generator.py` (lines
133–160): an empty store returns `False` outright; otherwise the corpus is
vectorised (raising sklearn's empty-vocabulary `ValueError` when no
document yields any feature) and the result is
`max_similarity >= similarity_threshold`. -/
noncomputable def is_similar_to_existing (threshold : ℝ) (stop_words : List String)
    (new_tweet : String) (storage : List TweetEntry) : Except String Prop :=
  if storage.map (fun t => t.text) = [] then .ok False
  else if limitVocab (simCorpus stop_words new_tweet (storage.map (fun t => t.text))) 1000 = [] then
    .error "empty vocabulary; perhaps the documents only contain stop words"
  else .ok (maxPairwiseCosine stop_words new_tweet (storage.map (fun t => t.text)) ≥ threshold)

/-! ## Shared helper lemmas -/

/-- A string contains its own leading component built by `++`. -/
theorem strContains_append_right (a b : String) : strContains (a ++ b) a = true := by
  apply decide_eq_true
  rw [String.data_append]
  exact ⟨[], b.data, by simp⟩

/-- A string occurs inside `a ++ self ++ b`. -/
theorem strContains_middle (a n b : String) : strContains (a ++ n ++ b) n = true := by
  apply decide_eq_true
  rw [String.data_append, String.data_append]
  exact ⟨a.data, b.data, by simp⟩

/-! ## C5 — `get_env_var` contract -/

/-- Claim C5. For every variable name, `get_env_var` returns the
environment value when it is set and raises a `ValueError` whose message
names exactly that variable when it is absent; no retry, no default. -/
theorem C5_get_env_var_contract (env : String → Option String) (var_name value : String) :
    (env var_name = some value → get_env_var env var_name = .ok value) ∧
    (env var_name = none →
      get_env_var env var_name =
          .error ("Environment variable " ++ var_name ++ " not found.") ∧
        strContains ("Environment variable " ++ var_name ++ " not found.") var_name = true) := by
  constructor
  · intro h
    simp [get_env_var, h]
  · intro h
    refine ⟨by simp [get_env_var, h], ?_⟩
    have := strContains_middle "Environment variable " var_name " not found."
    simpa [String.append_assoc] using this

/-- C5 witness: a set variable is returned, a missing one yields the
error naming it. -/
theorem C5_get_env_var_contract_witness :
    get_env_var (fun n => if n = "CONSUMER_KEY" then some "ck" else none) "CONSUMER_KEY" =
        .ok "ck" ∧
      get_env_var (fun _ => none) "TWITTER_USERNAME" =
        .error "Environment variable TWITTER_USERNAME not found." := by
  refine ⟨(C5_get_env_var_contract _ "CONSUMER_KEY" "ck").1 (by simp),
    ((C5_get_env_var_contract (fun _ => none) "TWITTER_USERNAME" "").2 rfl).1⟩

/-! ## C9 — the orchestrator swaps credential roles -/

/-- Claim C9. `main` in `app.py` passes its arguments to `post_tweet`
positionally as `(access_token, access_token_secret, consumer_key,
consumer_secret, tweet_text)`, so the OAuth1 session is constructed with
the access token in the `client_key` (consumer-key) slot, the access
token secret in `client_secret`, the consumer key in
`resource_owner_key`, and the consumer secret in
`resource_owner_secret` — the roles are swapped relative to
`post_tweet`'s declared parameter order. -/
theorem C9_main_call_swaps_roles
    (access_token access_token_secret consumer_key consumer_secret tweet_text : String) :
    (app_main_post_call access_token access_token_secret consumer_key consumer_secret
        tweet_text).1.client_key = access_token ∧
    (app_main_post_call access_token access_token_secret consumer_key consumer_secret
        tweet_text).1.client_secret = access_token_secret ∧
    (app_main_post_call access_token access_token_secret consumer_key consumer_secret
        tweet_text).1.resource_owner_key = consumer_key ∧
    (app_main_post_call access_token access_token_secret consumer_key consumer_secret
        tweet_text).1.resource_owner_secret = consumer_secret ∧
    (app_main_post_call access_token access_token_secret consumer_key consumer_secret
        tweet_text).2 = tweet_text :=
  ⟨rfl, rfl, rfl, rfl, rfl⟩

/-! ## C10 — the OAuth handler imports a name that does not exist -/

/-- Claim C10. `src/auth/oauth_handler.py` imports `setup_selenium` from
`src/utils/selenium_setup.py`, which binds only `setup_selenium_driver`;
loading the OAuth handler therefore fails with an unresolved-name
error at import time, and any run that needs the token exchange fails at
module load, before any OAuth step (no request-token or access-token
call is ever made). -/
theorem C10_oauth_handler_import_error :
    oauth_handler_selenium_import ∉ selenium_setup_module_names ∧
    load_oauth_handler = .error "cannot import name setup_selenium" ∧
    ∀ fetch_request_token verifier exchange,
      (run_token_exchange fetch_request_token verifier exchange).1 =
          .error "cannot import name setup_selenium" ∧
        (run_token_exchange fetch_request_token verifier exchange).2 = [] := by
  refine ⟨by decide, rfl, fun fetch_request_token verifier exchange => ⟨rfl, rfl⟩⟩

/-! ## C3 — missing verifier blocks the access-token exchange -/

/-- Claim C3. If verifier acquisition yields no code (a falsy result),
`fetch_access_token` raises the authentication `ValueError` and the
access-token endpoint is never called; the exchange is reached only with
a non-empty verifier in hand. -/
theorem C3_verifier_gate
    (fetch_request_token : Except String (String × String))
    (verifier : Option String)
    (exchange : String × String → String → Except String (String × String))
    (hfalsy : verifier = none ∨ verifier = some "") :
    OAuthCall.accessTokenCall ∉ (fetch_access_token fetch_request_token verifier exchange).2 ∧
    (∀ k s, fetch_request_token = .ok (k, s) →
      (fetch_access_token fetch_request_token verifier exchange).1 =
        .error "OAuth verification process failed: Unable to obtain verifier code") ∧
    (∀ req v ex, OAuthCall.accessTokenCall ∈ (fetch_access_token req v ex).2 →
      ∃ code, v = some code ∧ code ≠ "") := by
  refine ⟨?_, ?_, ?_⟩
  · rcases hfalsy with h | h <;> subst h <;>
      cases fetch_request_token <;> simp [fetch_access_token]
  · intro k s hreq
    subst hreq
    rcases hfalsy with h | h <;> subst h <;> simp [fetch_access_token]
  · intro req v ex hmem
    cases req with
    | error e => simp [fetch_access_token] at hmem
    | ok pair =>
      cases v with
      | none => simp [fetch_access_token] at hmem
      | some code =>
        by_cases hc : code = ""
        · subst hc
          simp [fetch_access_token] at hmem
        · exact ⟨code, rfl, hc⟩

/-- C3 witness: with a successful request-token step and a `None`
verifier, the run fails with the authentication error and never touches
the access-token endpoint. -/
theorem C3_verifier_gate_witness :
    OAuthCall.accessTokenCall ∉
        (fetch_access_token (.ok ("rt", "rts")) none
          (fun _ _ => .ok ("at", "ats"))).2 ∧
      (fetch_access_token (.ok ("rt", "rts")) none
          (fun _ _ => .ok ("at", "ats"))).1 =
        .error "OAuth verification process failed: Unable to obtain verifier code" := by
  have h := C3_verifier_gate (.ok ("rt", "rts")) none
    (fun _ _ => .ok ("at", "ats")) (Or.inl rfl)
  exact ⟨h.1, h.2.1 "rt" "rts" rfl⟩

/-! ## C1 — `post_tweet` status handling -/

/-- Claim C1 counterexample. The claim fails on the code in two ways.
A stubbed 200 response is not status 201, yet `post_tweet` returns the
decoded body instead of raising (`raise_for_status` only raises for
4xx/5xx).  And for the claim's own 403/"forbidden" stub, the raised
message is the `requests` `HTTPError` text, which carries the status code
and reason but not the response body: it does not contain
`"forbidden"`. -/
theorem C1_post_tweet_counterexample :
    (post_tweet ⟨200, "OK", "https://api.twitter.com/2/tweets", "ok-body", "decoded-body"⟩).outcome =
        .ok "decoded-body" ∧
      (post_tweet ⟨403, "Forbidden", "https://api.twitter.com/2/tweets", "forbidden",
            "forbidden"⟩).outcome =
        .error "403 Client Error: Forbidden for url: https://api.twitter.com/2/tweets" ∧
      strContains "403 Client Error: Forbidden for url: https://api.twitter.com/2/tweets"
          "forbidden" = false :=
  ⟨rfl, rfl, by decide⟩

/-- Claim C1 amended. On HTTP 201 `post_tweet` returns the decoded JSON
body with no error activity.  A status in 400–599 raises an error whose
message carries the status code (with the reason phrase and URL) but not
the response body; the status and the body appear verbatim only in the
logged error line.  Any other non-201 status (e.g. 200) raises nothing
and returns the decoded body after logging the error line. -/
theorem C1_post_tweet_status_handling (r : HttpResponse) :
    (r.status = 201 → post_tweet r = ⟨.ok r.jsonValue, []⟩) ∧
    (400 ≤ r.status ∧ r.status < 600 →
      ∃ msg, (post_tweet r).outcome = .error msg ∧
        strContains msg (toString r.status) = true ∧
        (post_tweet r).errorLogs =
          ["Error posting tweet: " ++ toString r.status ++ " " ++ r.text,
            "Failed to post tweet: " ++ msg]) ∧
    (r.status ≠ 201 → ¬ (400 ≤ r.status ∧ r.status < 600) →
      (post_tweet r).outcome = .ok r.jsonValue ∧
        (post_tweet r).errorLogs =
          ["Error posting tweet: " ++ toString r.status ++ " " ++ r.text]) := by
  refine ⟨?_, ?_, ?_⟩
  · intro h201
    simp [post_tweet, h201]
  · rintro ⟨h4, h6⟩
    have hne : r.status ≠ 201 := by omega
    by_cases h5 : r.status < 500
    · refine ⟨toString r.status ++ " Client Error: " ++ r.reason ++ " for url: " ++ r.url,
        ?_, ?_, ?_⟩
      · simp [post_tweet, hne, raise_for_status_msg, h4, h5]
      · have := strContains_append_right (toString r.status)
          (" Client Error: " ++ r.reason ++ " for url: " ++ r.url)
        simpa [String.append_assoc] using this
      · simp [post_tweet, hne, raise_for_status_msg, h4, h5]
    · have h5' : 500 ≤ r.status := by omega
      refine ⟨toString r.status ++ " Server Error: " ++ r.reason ++ " for url: " ++ r.url,
        ?_, ?_, ?_⟩
      · simp [post_tweet, hne, raise_for_status_msg, h4, h5, h5', h6]
      · have := strContains_append_right (toString r.status)
          (" Server Error: " ++ r.reason ++ " for url: " ++ r.url)
        simpa [String.append_assoc] using this
      · simp [post_tweet, hne, raise_for_status_msg, h4, h5, h5', h6]
  · intro hne hrange
    have : raise_for_status_msg r = none := by
      simp only [raise_for_status_msg]
      rw [if_neg, if_neg] <;> omega
    simp [post_tweet, hne, this]

/-- C1 amended witness: the 201 stub returns its decoded body; the
403/"forbidden" stub raises with the status code in the message. -/
theorem C1_post_tweet_status_handling_witness :
    post_tweet ⟨201, "Created", "https://api.twitter.com/2/tweets", "raw", "decoded"⟩ =
        ⟨.ok "decoded", []⟩ ∧
      ∃ msg,
        (post_tweet ⟨403, "Forbidden", "https://api.twitter.com/2/tweets", "forbidden",
              "forbidden"⟩).outcome = .error msg ∧
          strContains msg "403" = true ∧
          (post_tweet ⟨403, "Forbidden", "https://api.twitter.com/2/tweets", "forbidden",
                "forbidden"⟩).errorLogs =
            ["Error posting tweet: 403 forbidden", "Failed to post tweet: " ++ msg] := by
  constructor
  · exact (C1_post_tweet_status_handling
      ⟨201, "Created", "https://api.twitter.com/2/tweets", "raw", "decoded"⟩).1 rfl
  · exact (C1_post_tweet_status_handling
      ⟨403, "Forbidden", "https://api.twitter.com/2/tweets", "forbidden", "forbidden"⟩).2.1
      (by decide)

/-! ## C8 — browser login error handling and cleanup -/

/-- Claim C8 counterexample. `setup_selenium` runs before the `try` block:
an environment whose driver setup raises makes `get_twitter_verifier`
propagate that fault (it does not return `None`), and `driver.quit()`
never runs. -/
theorem C8_browser_counterexample :
    (get_twitter_verifier
        ⟨.error "driver setup failed", .ok (), fun _ => .ok "code", "page"⟩).result =
        .error "driver setup failed" ∧
      (get_twitter_verifier
          ⟨.error "driver setup failed", .ok (), fun _ => .ok "code", "page"⟩).driverQuit =
        false :=
  ⟨rfl, rfl⟩

/-- Claim C8 amended. In every execution in which the driver was created
(setup succeeded), any error in the login sequence — element waits timing
out included — makes `get_twitter_verifier` return `None` rather than
raise, a successful sequence returns the verifier code, and
`driver.quit()` runs on both paths via the `finally` block. -/
theorem C8_browser_cleanup (env : BrowserEnv) (hsetup : env.setup = .ok ()) :
    (get_twitter_verifier env).driverQuit = true ∧
    (∀ e, get_twitter_verifier_body env = .error e →
      (get_twitter_verifier env).result = .ok none) ∧
    (∀ code, get_twitter_verifier_body env = .ok code →
      (get_twitter_verifier env).result = .ok (some code)) := by
  refine ⟨?_, ?_, ?_⟩
  · simp only [get_twitter_verifier, hsetup]
    cases get_twitter_verifier_body env <;> rfl
  · intro e he
    simp [get_twitter_verifier, hsetup, he]
  · intro code hc
    simp [get_twitter_verifier, hsetup, hc]

/-- C8 amended witness: a run whose first element wait times out returns
`None` and still quits the driver. -/
theorem C8_browser_cleanup_witness :
    (get_twitter_verifier
        ⟨.ok (), .ok (), fun _ => .error "timeout waiting for element", "page"⟩).driverQuit =
        true ∧
      (get_twitter_verifier
          ⟨.ok (), .ok (), fun _ => .error "timeout waiting for element", "page"⟩).result =
        .ok none := by
  have h := C8_browser_cleanup
    ⟨.ok (), .ok (), fun _ => .error "timeout waiting for element", "page"⟩ rfl
  exact ⟨h.1, h.2.1 "timeout waiting for element" rfl⟩

/-! ## Generator loop lemmas -/

/-- Every exit of the regular-mode attempt loop reports mode
`"regular"`. -/
theorem regularAttempts_mode (api : Nat → Except String String)
    (sim : List TweetEntry → String → Except String Bool)
    (storage : List TweetEntry) (now : String) (maxLen : Nat) (topic phase : Option String) :
    ∀ fuel attempt,
      (regularAttempts api sim storage now maxLen topic phase fuel attempt).mode = "regular" := by
  intro fuel
  induction fuel with
  | zero => intro attempt; rfl
  | succ n ih =>
    intro attempt
    simp only [regularAttempts]
    cases hapi : api attempt with
    | error e => rfl
    | ok raw =>
      cases hsim : sim storage (truncate maxLen (pyStrip raw)) with
      | error e => simp [hsim]
      | ok b => cases b <;> simp [hsim, ih]

/-- If every attempt in the remaining budget yields a candidate the
similarity check classifies as similar, the loop consumes the whole
budget and returns the failure sentinel. -/
theorem regularAttempts_all_similar (api : Nat → Except String String)
    (sim : List TweetEntry → String → Except String Bool)
    (storage : List TweetEntry) (now : String) (maxLen : Nat) (topic phase : Option String) :
    ∀ fuel attempt,
      (∀ k, attempt ≤ k → k < attempt + fuel →
        ∃ raw, api k = .ok raw ∧
          sim storage (truncate maxLen (pyStrip raw)) = .ok true) →
      regularAttempts api sim storage now maxLen topic phase fuel attempt =
        ⟨"Failed to generate a unique tweet. Please try again.", storage,
          attempt + fuel, "regular"⟩ := by
  intro fuel
  induction fuel with
  | zero => intro attempt h; simp [regularAttempts]
  | succ n ih =>
    intro attempt h
    obtain ⟨raw, hapi, hsim⟩ := h attempt (le_refl _) (by omega)
    rw [show attempt + (n + 1) = (attempt + 1) + n from by omega]
    simp only [regularAttempts, hapi, hsim]
    exact ih (attempt + 1) (fun k hk hk' => h k (by omega) (by omega))

/-- If the `k`-th API call raises after a streak of similar candidates,
the loop aborts at that call with the exception-embedding sentinel. -/
theorem regularAttempts_abort (api : Nat → Except String String)
    (sim : List TweetEntry → String → Except String Bool)
    (storage : List TweetEntry) (now : String) (maxLen : Nat) (topic phase : Option String) :
    ∀ fuel attempt k e, attempt ≤ k → k < attempt + fuel →
      (∀ j, attempt ≤ j → j < k →
        ∃ raw, api j = .ok raw ∧
          sim storage (truncate maxLen (pyStrip raw)) = .ok true) →
      api k = .error e →
      regularAttempts api sim storage now maxLen topic phase fuel attempt =
        ⟨"Error generating tweet: " ++ e, storage, k + 1, "regular"⟩ := by
  intro fuel
  induction fuel with
  | zero => intro attempt k e h1 h2 _ _; omega
  | succ n ih =>
    intro attempt k e h1 h2 hok herr
    by_cases hak : attempt = k
    · subst hak
      simp [regularAttempts, herr]
    · obtain ⟨raw, hapi, hsim⟩ := hok attempt (le_refl _) (by omega)
      simp only [regularAttempts, hapi, hsim]
      exact ih (attempt + 1) k e (by omega) (by omega)
        (fun j hj hj' => hok j (by omega) hj') herr

/-- A first-call accept: the candidate is stored and returned. -/
theorem regularAttempts_accept (api : Nat → Except String String)
    (sim : List TweetEntry → String → Except String Bool)
    (storage : List TweetEntry) (now : String) (maxLen : Nat) (topic phase : Option String)
    (fuel attempt : Nat) (raw : String)
    (hapi : api attempt = .ok raw)
    (hsim : sim storage (truncate maxLen (pyStrip raw)) = .ok false) :
    regularAttempts api sim storage now maxLen topic phase (fuel + 1) attempt =
      ⟨truncate maxLen (pyStrip raw),
        storage ++ [⟨truncate maxLen (pyStrip raw), now, topic, phase⟩],
        attempt + 1, "regular"⟩ := by
  simp [regularAttempts, hapi, hsim]

/-! ## C2 — the regular-mode attempt loop -/

/-- Claim C2. In regular mode, if every candidate the generative API
returns is classified similar, `generate_tweet` makes exactly 3 API
calls, returns the failure sentinel, and leaves the storage untouched;
and if the API call of any reachable attempt raises, the loop aborts at
that call and returns the sentinel embedding the exception text. -/
theorem C2_regular_attempt_budget (api : Nat → Except String String)
    (sim : List TweetEntry → String → Except String Bool)
    (storage : List TweetEntry) (now : String) (maxLen : Nat) (topic phase : Option String)
    (hintro : has_intro storage = true) :
    ((∀ k, k < 3 →
        ∃ raw, api k = .ok raw ∧
          sim storage (truncate maxLen (pyStrip raw)) = .ok true) →
      generate_tweet api sim storage now maxLen topic phase =
        ⟨"Failed to generate a unique tweet. Please try again.", storage, 3, "regular"⟩) ∧
    (∀ k e, k < 3 →
      (∀ j, j < k →
        ∃ raw, api j = .ok raw ∧
          sim storage (truncate maxLen (pyStrip raw)) = .ok true) →
      api k = .error e →
      generate_tweet api sim storage now maxLen topic phase =
        ⟨"Error generating tweet: " ++ e, storage, k + 1, "regular"⟩) := by
  constructor
  · intro h
    have := regularAttempts_all_similar api sim storage now maxLen topic phase 3 0
      (fun k hk hk' => h k (by omega))
    simpa [generate_tweet, hintro] using this
  · intro k e hk hok herr
    have := regularAttempts_abort api sim storage now maxLen topic phase 3 0 k e
      (by omega) (by omega) (fun j hj hj' => hok j hj') herr
    simpa [generate_tweet, hintro] using this

/-- C2 witness: with an introduction already stored, an API stub whose
candidates are always classified similar exhausts 3 calls and returns
the sentinel; an API stub that raises on the first call aborts with the
embedding sentinel after 1 call. -/
theorem C2_regular_attempt_budget_witness :
    generate_tweet (fun _ => .ok "dup") (fun _ _ => .ok true)
        [⟨"hello", "2024-01-01T00:00:00", some "introduction", none⟩] "now" 280 none none =
      ⟨"Failed to generate a unique tweet. Please try again.",
        [⟨"hello", "2024-01-01T00:00:00", some "introduction", none⟩], 3, "regular"⟩ ∧
    generate_tweet (fun _ => .error "boom") (fun _ _ => .ok true)
        [⟨"hello", "2024-01-01T00:00:00", some "introduction", none⟩] "now" 280 none none =
      ⟨"Error generating tweet: boom",
        [⟨"hello", "2024-01-01T00:00:00", some "introduction", none⟩], 1, "regular"⟩ := by
  constructor
  · exact (C2_regular_attempt_budget (fun _ => .ok "dup") (fun _ _ => .ok true)
      [⟨"hello", "2024-01-01T00:00:00", some "introduction", none⟩] "now" 280 none none
      (by decide)).1 (fun k hk => ⟨"dup", rfl, rfl⟩)
  · exact (C2_regular_attempt_budget (fun _ => .error "boom") (fun _ _ => .ok true)
      [⟨"hello", "2024-01-01T00:00:00", some "introduction", none⟩] "now" 280 none none
      (by decide)).2 0 "boom" (by omega) (fun j hj => absurd hj (by omega)) rfl

/-! ## C4 — the introduction gate -/

/-- Claim C4. Whenever some stored entry has topic `"introduction"`,
`generate_tweet` — with any topic/phase arguments, including none — takes
the regular branch; when no such entry exists it takes the introduction
branch. -/
theorem C4_introduction_gate (api : Nat → Except String String)
    (sim : List TweetEntry → String → Except String Bool)
    (storage : List TweetEntry) (now : String) (maxLen : Nat) (topic phase : Option String) :
    ((∃ entry ∈ storage, entry.topic = some "introduction") →
      (generate_tweet api sim storage now maxLen topic phase).mode = "regular") ∧
    ((¬ ∃ entry ∈ storage, entry.topic = some "introduction") →
      (generate_tweet api sim storage now maxLen topic phase).mode = "introduction") := by
  have hiff : has_intro storage = true ↔
      ∃ entry ∈ storage, entry.topic = some "introduction" := by
    simp [has_intro, List.any_eq_true]
  constructor
  · intro hex
    simp only [generate_tweet, hiff.mpr hex, if_true]
    exact regularAttempts_mode api sim storage now maxLen topic phase 3 0
  · intro hnex
    have hfalse : has_intro storage = false := by
      rcases Bool.eq_false_or_eq_true (has_intro storage) with h | h
      · exact absurd (hiff.mp h) hnex
      · exact h
    simp only [generate_tweet, hfalse, Bool.false_eq_true, if_false]
    cases hapi : api 0 <;> simp [introGen, hapi]

/-- C4 witness: with a stored introduction entry a call with no
topic/phase runs in regular mode; with none it runs in introduction
mode. -/
theorem C4_introduction_gate_witness :
    (generate_tweet (fun _ => .ok "text") (fun _ _ => .ok false)
        [⟨"hello", "2024-01-01T00:00:00", some "introduction", none⟩] "now" 280
        none none).mode = "regular" ∧
    (generate_tweet (fun _ => .ok "text") (fun _ _ => .ok false)
        [⟨"hello", "2024-01-01T00:00:00", some "indie games", none⟩] "now" 280
        none none).mode = "introduction" := by
  constructor
  · exact (C4_introduction_gate (fun _ => .ok "text") (fun _ _ => .ok false)
      [⟨"hello", "2024-01-01T00:00:00", some "introduction", none⟩] "now" 280
      none none).1 (by decide)
  · exact (C4_introduction_gate (fun _ => .ok "text") (fun _ _ => .ok false)
      [⟨"hello", "2024-01-01T00:00:00", some "indie games", none⟩] "now" 280
      none none).2 (by decide)

/-! ## C6 — hard truncation to 280 characters in both modes -/

/-- Claim C6. A generated candidate longer than 280 characters is cut to
exactly its first 280 characters (a hard, possibly mid-word cut); a
candidate of at most 280 characters is unchanged; and both the
introduction branch and the regular branch pass their candidate through
this same truncation before returning it. -/
theorem C6_truncation (api : Nat → Except String String)
    (sim : List TweetEntry → String → Except String Bool)
    (storage : List TweetEntry) (now raw : String) (topic phase : Option String)
    (hapi : api 0 = .ok raw) :
    ((pyStrip raw).length > 280 →
      truncate 280 (pyStrip raw) = String.mk ((pyStrip raw).data.take 280) ∧
        (truncate 280 (pyStrip raw)).length = 280) ∧
    ((pyStrip raw).length ≤ 280 → truncate 280 (pyStrip raw) = pyStrip raw) ∧
    (has_intro storage = false →
      (generate_tweet api sim storage now 280 topic phase).result =
        truncate 280 (pyStrip raw)) ∧
    (has_intro storage = true →
      sim storage (truncate 280 (pyStrip raw)) = .ok false →
      (generate_tweet api sim storage now 280 topic phase).result =
        truncate 280 (pyStrip raw)) := by
  refine ⟨?_, ?_, ?_, ?_⟩
  · intro hlong
    refine ⟨by simp [truncate, hlong], ?_⟩
    have hdata : (pyStrip raw).data.length > 280 := hlong
    simp only [truncate, hlong, if_pos, String.length_mk, List.length_take]
    omega
  · intro hshort
    simp [truncate]
    omega
  · intro hfalse
    simp [generate_tweet, hfalse, introGen, hapi]
  · intro htrue hsim
    have h3 : (3 : Nat) = 2 + 1 := rfl
    simp only [generate_tweet, htrue, if_true, h3]
    rw [regularAttempts_accept api sim storage now 280 topic phase 2 0 raw hapi hsim]

set_option maxRecDepth 4000 in
/-- C6 witness: a 300-character candidate is cut to its first 280
characters and returned truncated by the introduction branch. -/
theorem C6_truncation_witness :
    truncate 280 (pyStrip (String.mk (List.replicate 300 'a'))) =
        String.mk ((pyStrip (String.mk (List.replicate 300 'a'))).data.take 280) ∧
      (truncate 280 (pyStrip (String.mk (List.replicate 300 'a')))).length = 280 ∧
      (generate_tweet (fun _ => .ok (String.mk (List.replicate 300 'a')))
          (fun _ _ => .ok false) [] "now" 280 none none).result =
        truncate 280 (pyStrip (String.mk (List.replicate 300 'a'))) := by
  have h := C6_truncation (fun _ => .ok (String.mk (List.replicate 300 'a')))
    (fun _ _ => .ok false) [] "now" (String.mk (List.replicate 300 'a')) none none rfl
  have hlong : (pyStrip (String.mk (List.replicate 300 'a'))).length > 280 := by decide
  exact ⟨(h.1 hlong).1, (h.1 hlong).2, h.2.2.1 rfl⟩

/-! ## Similarity helper lemmas -/

/-- The seed of a `foldl max` is a lower bound of the result. -/
theorem le_foldl_max (l : List ℝ) (x : ℝ) : x ≤ l.foldl max x := by
  induction l generalizing x with
  | nil => simp
  | cons a as ih =>
    simp only [List.foldl_cons]
    exact le_trans (le_max_left x a) (ih (max x a))

/-- Every element of the list is a lower bound of its `foldl max`. -/
theorem mem_le_foldl_max (l : List ℝ) (x y : ℝ) (hy : y ∈ l) : y ≤ l.foldl max x := by
  induction l generalizing x with
  | nil => cases hy
  | cons a as ih =>
    simp only [List.foldl_cons]
    rcases List.mem_cons.mp hy with h | h
    · subst h
      exact le_trans (le_max_right x y) (le_foldl_max as (max x y))
    · exact ih (max x a) h

/-- Every element of a list bounds `pyMax` from below. -/
theorem mem_le_pyMax (l : List ℝ) (y : ℝ) (hy : y ∈ l) : y ≤ pyMax l := by
  cases l with
  | nil => cases hy
  | cons x xs =>
    simp only [pyMax]
    rcases List.mem_cons.mp hy with h | h
    · subst h
      exact le_foldl_max xs y
    · exact mem_le_foldl_max xs x y h

/-- The smoothed idf is always at least 1 (`df ≤ n`). -/
theorem one_le_idf (docs : List (List String)) (f : String) : 1 ≤ idf docs f := by
  have hdf : (docFreq docs f : ℝ) ≤ (docs.length : ℝ) := by
    exact_mod_cast List.countP_le_length _
  have hpos : (0 : ℝ) < 1 + (docFreq docs f : ℝ) := by positivity
  have hlog : 0 ≤ Real.log ((1 + (docs.length : ℝ)) / (1 + (docFreq docs f : ℝ))) := by
    apply Real.log_nonneg
    exact (one_le_div hpos).mpr (by linarith)
  simp only [idf]
  linarith

/-- A tf-idf row dotted with itself is a sum of squares. -/
theorem dotTfidf_self_nonneg (vocab : List String) (docs : List (List String))
    (d : List String) : 0 ≤ dotTfidf vocab docs d d := by
  apply List.sum_nonneg
  intro x hx
  obtain ⟨f, _, rfl⟩ := List.mem_map.mp hx
  exact mul_self_nonneg _

/-- A document containing a vocabulary feature has a strictly positive
self-dot-product. -/
theorem dotTfidf_self_pos (vocab : List String) (docs : List (List String))
    (d : List String) (f : String) (hf : f ∈ vocab) (hfd : f ∈ d) :
    0 < dotTfidf vocab docs d d := by
  have h1 : (1 : ℝ) ≤ (d.count f : ℝ) := by
    exact_mod_cast List.count_pos_iff.mpr hfd
  have h2 : 1 ≤ idf docs f := one_le_idf docs f
  have hval : (1 : ℝ) ≤ tfidfVal docs d f := by
    simp only [tfidfVal]
    nlinarith
  have hterm : (1 : ℝ) ≤ tfidfVal docs d f * tfidfVal docs d f := by nlinarith
  have hmem : tfidfVal docs d f * tfidfVal docs d f ∈
      vocab.map (fun g => tfidfVal docs d g * tfidfVal docs d g) :=
    List.mem_map_of_mem _ hf
  have hle : tfidfVal docs d f * tfidfVal docs d f ≤
      (vocab.map (fun g => tfidfVal docs d g * tfidfVal docs d g)).sum := by
    apply List.single_le_sum (fun x hx => ?_) _ hmem
    obtain ⟨g, _, rfl⟩ := List.mem_map.mp hx
    exact mul_self_nonneg _
  have : (1 : ℝ) ≤ dotTfidf vocab docs d d := by
    simp only [dotTfidf]
    linarith
  linarith

/-- Cosine similarity of a nonzero tf-idf row with itself is exactly 1. -/
theorem cosSim_self (vocab : List String) (docs : List (List String)) (d : List String)
    (hpos : 0 < dotTfidf vocab docs d d) : cosSim vocab docs d d = 1 := by
  have hne : dotTfidf vocab docs d d ≠ 0 := ne_of_gt hpos
  simp only [cosSim]
  rw [if_neg (by simp [hne])]
  rw [Real.mul_self_sqrt (le_of_lt hpos)]
  exact div_self hne

/-- `max_features` does not restrict a vocabulary that already fits. -/
theorem limitVocab_eq (docs : List (List String)) (maxFeatures : Nat)
    (h : (vocabAll docs).length ≤ maxFeatures) :
    limitVocab docs maxFeatures = vocabAll docs := by
  simp [limitVocab, h]

/-- Unfolding of `is_similar_to_existing` on the vectorised path: with a
nonempty store and a nonempty fitted vocabulary, the classification is
exactly the inclusive threshold comparison against the maximum pairwise
cosine similarity. -/
theorem is_similar_eq_threshold (threshold : ℝ) (stop_words : List String)
    (new_tweet : String) (storage : List TweetEntry)
    (hst : storage ≠ [])
    (hvoc : limitVocab (simCorpus stop_words new_tweet (storage.map (fun t => t.text))) 1000 ≠ []) :
    is_similar_to_existing threshold stop_words new_tweet storage =
      .ok (maxPairwiseCosine stop_words new_tweet (storage.map (fun t => t.text)) ≥ threshold) := by
  have hex : storage.map (fun t => t.text) ≠ [] := by
    simpa [List.map_eq_nil_iff] using hst
  simp only [is_similar_to_existing]
  rw [if_neg hex, if_neg hvoc]

/-! ## C7 — similarity classification semantics -/

/-- Claim C7 counterexample. For the new text `"a"` with a stored entry of
identical wording and threshold 0.9 ≤ 1, the claim demands a similarity
of 1.0 and a "similar" classification; but the sklearn token pattern
drops single-character tokens, every document vectorises to nothing, and
`fit_transform` raises the empty-vocabulary `ValueError` instead of
classifying — so the call raises rather than classifying the identical
pair as similar. -/
theorem C7_similarity_counterexample :
    is_similar_to_existing ((9 : ℝ) / 10) [] "a"
        [⟨"a", "2024-01-01T00:00:00", some "introduction", none⟩] =
      .error "empty vocabulary; perhaps the documents only contain stop words" ∧
    (⟨"a", "2024-01-01T00:00:00", some "introduction", none⟩ : TweetEntry).text = "a" ∧
    (9 : ℝ) / 10 ≤ 1 :=
  ⟨rfl, rfl, by norm_num⟩

/-- Claim C7 amended. Whenever the store is nonempty and the corpus yields
a nonempty fitted vocabulary, `is_similar_to_existing` classifies the new
text as similar exactly when the maximum pairwise cosine similarity
against the stored texts is ≥ the threshold (inclusive).  Moreover, for
any stored entry with wording identical to the new text — provided the
text yields at least one feature under the tokenizer/stop-list and the
corpus has at most 1000 distinct features, so vectorisation succeeds and
keeps it — the pairwise similarity of that pair is exactly 1, the maximum
similarity is at least 1, and the pair is classified similar at every
threshold ≤ 1. -/
theorem C7_similarity_semantics (threshold : ℝ) (stop_words : List String)
    (new_tweet : String) (storage : List TweetEntry) :
    (storage ≠ [] →
      limitVocab (simCorpus stop_words new_tweet (storage.map (fun t => t.text))) 1000 ≠ [] →
      is_similar_to_existing threshold stop_words new_tweet storage =
        .ok (maxPairwiseCosine stop_words new_tweet (storage.map (fun t => t.text)) ≥
          threshold)) ∧
    (∀ entry ∈ storage, entry.text = new_tweet →
      features stop_words new_tweet ≠ [] →
      (vocabAll (simCorpus stop_words new_tweet (storage.map (fun t => t.text)))).length ≤
        1000 →
      cosSim (limitVocab (simCorpus stop_words new_tweet (storage.map (fun t => t.text))) 1000)
          (simCorpus stop_words new_tweet (storage.map (fun t => t.text)))
          (features stop_words new_tweet) (features stop_words entry.text) = 1 ∧
        1 ≤ maxPairwiseCosine stop_words new_tweet (storage.map (fun t => t.text)) ∧
        (threshold ≤ 1 →
          ∃ p, is_similar_to_existing threshold stop_words new_tweet storage = .ok p ∧ p)) := by
  constructor
  · exact is_similar_eq_threshold threshold stop_words new_tweet storage
  · intro entry hmem hid hfeat hsize
    have hvocab_eq :
        limitVocab (simCorpus stop_words new_tweet (storage.map (fun t => t.text))) 1000 =
          vocabAll (simCorpus stop_words new_tweet (storage.map (fun t => t.text))) :=
      limitVocab_eq _ 1000 hsize
    obtain ⟨f, hf⟩ := List.exists_mem_of_ne_nil _ hfeat
    have hnewdoc_mem : features stop_words new_tweet ∈
        simCorpus stop_words new_tweet (storage.map (fun t => t.text)) := by
      simp only [simCorpus]
      exact List.mem_map_of_mem _ (List.mem_cons_self _ _)
    have hf_vocab : f ∈
        vocabAll (simCorpus stop_words new_tweet (storage.map (fun t => t.text))) := by
      simp only [vocabAll, List.mem_dedup]
      exact List.mem_flatten.mpr ⟨_, hnewdoc_mem, hf⟩
    have hpos : 0 <
        dotTfidf
          (limitVocab (simCorpus stop_words new_tweet (storage.map (fun t => t.text))) 1000)
          (simCorpus stop_words new_tweet (storage.map (fun t => t.text)))
          (features stop_words new_tweet) (features stop_words new_tweet) := by
      rw [hvocab_eq]
      exact dotTfidf_self_pos _ _ _ f hf_vocab hf
    have hcos :
        cosSim (limitVocab (simCorpus stop_words new_tweet (storage.map (fun t => t.text))) 1000)
          (simCorpus stop_words new_tweet (storage.map (fun t => t.text)))
          (features stop_words new_tweet) (features stop_words new_tweet) = 1 :=
      cosSim_self _ _ _ hpos
    have hcos_entry :
        cosSim (limitVocab (simCorpus stop_words new_tweet (storage.map (fun t => t.text))) 1000)
          (simCorpus stop_words new_tweet (storage.map (fun t => t.text)))
          (features stop_words new_tweet) (features stop_words entry.text) = 1 := by
      rw [hid]
      exact hcos
    have helem :
        cosSim (limitVocab (simCorpus stop_words new_tweet (storage.map (fun t => t.text))) 1000)
            (simCorpus stop_words new_tweet (storage.map (fun t => t.text)))
            (features stop_words new_tweet) (features stop_words entry.text) ∈
          ((storage.map (fun t => t.text)).map (features stop_words)).map
            (fun d =>
              cosSim
                (limitVocab (simCorpus stop_words new_tweet (storage.map (fun t => t.text)))
                  1000)
                (simCorpus stop_words new_tweet (storage.map (fun t => t.text)))
                (features stop_words new_tweet) d) := by
      exact List.mem_map_of_mem _ (List.mem_map_of_mem _ (List.mem_map_of_mem _ hmem))
    have hmax : 1 ≤ maxPairwiseCosine stop_words new_tweet (storage.map (fun t => t.text)) := by
      simp only [maxPairwiseCosine]
      exact mem_le_pyMax _ _ (hcos_entry ▸ helem)
    refine ⟨hcos_entry, hmax, ?_⟩
    intro hth
    refine ⟨maxPairwiseCosine stop_words new_tweet (storage.map (fun t => t.text)) ≥ threshold,
      ?_, ?_⟩
    · exact is_similar_eq_threshold threshold stop_words new_tweet storage
        (List.ne_nil_of_mem hmem)
        (by rw [hvocab_eq]; exact List.ne_nil_of_mem hf_vocab)
    · exact le_trans hth hmax

set_option maxHeartbeats 1000000 in
set_option maxRecDepth 4000 in
/-- C7 amended witness: with an empty stop list and the text
`"hello world"` stored verbatim, the pairwise similarity is exactly 1 and
the pair is classified similar at threshold 0.9. -/
theorem C7_similarity_semantics_witness :
    cosSim
        (limitVocab (simCorpus [] "hello world"
          (([(⟨"hello world", "2024-01-01T00:00:00", some "introduction", none⟩ :
            TweetEntry)]).map (fun t => t.text))) 1000)
        (simCorpus [] "hello world"
          (([(⟨"hello world", "2024-01-01T00:00:00", some "introduction", none⟩ :
            TweetEntry)]).map (fun t => t.text)))
        (features [] "hello world") (features [] "hello world") = 1 ∧
      1 ≤ maxPairwiseCosine [] "hello world"
        (([(⟨"hello world", "2024-01-01T00:00:00", some "introduction", none⟩ :
          TweetEntry)]).map (fun t => t.text)) ∧
      ∃ p, is_similar_to_existing ((9 : ℝ) / 10) [] "hello world"
          [⟨"hello world", "2024-01-01T00:00:00", some "introduction", none⟩] = .ok p ∧ p := by
  have h := (C7_similarity_semantics ((9 : ℝ) / 10) [] "hello world"
      [⟨"hello world", "2024-01-01T00:00:00", some "introduction", none⟩]).2
    ⟨"hello world", "2024-01-01T00:00:00", some "introduction", none⟩
    (by decide) rfl (by decide) (by decide)
  exact ⟨h.1, h.2.1, h.2.2 (by norm_num)⟩

end TwitterBot
